import Mathlib

/-!
  # Verification of the depspector analyzer core

Shallow embedding, translated from the Rust sources of `depspector`
(`src/util.rs`, `src/analyzers/mod.rs`, `src/analyzers/cve.rs`,
`src/analyzers/process.rs`, `src/analyzers/typosquat.rs`, `src/ast.rs`),
together with proofs about the embedded functions.

Modelling conventions:
* Rust `usize`/`u64` arithmetic is modelled with `Nat`; 32-bit overflow in the
  SHA-256 compression is made explicit with `% 2^32`.
* Rust `String`s are modelled with Lean `String`s; byte-index operations of the
  source (`rfind`, slicing) are modelled on the character list, which agrees
  with the source on ASCII data (all inputs appearing in the claims are ASCII).
* Rust `f64` values that only enter through the mathematical formulas of the
  spec (trust-score penalties, Levenshtein similarity, CVSS thresholds) are
  modelled with `ℝ` (where the formula involves `ln`) or `ℚ` (where it is
  rational); rounding of `f64` arithmetic is not modelled.
* Loops that consume strings are written with an explicit fuel argument equal
  to the string length, so all definitions are executable and kernel-reducible.
-/

namespace Depspector

/-! ## Generic character-list helpers (models of Rust `str` operations) -/

/-- Model of Rust `char::is_whitespace` (the Unicode `White_Space` property). -/
def isRustWhitespace (c : Char) : Bool :=
  c = ' ' || c = '\t' || c = '\n' || c = '\x0b' || c = '\x0c' || c = '\r' ||
  c.toNat = 0x85 || c.toNat = 0xa0 || c.toNat = 0x1680 ||
  (0x2000 ≤ c.toNat && c.toNat ≤ 0x200a) ||
  c.toNat = 0x2028 || c.toNat = 0x2029 || c.toNat = 0x202f ||
  c.toNat = 0x205f || c.toNat = 0x3000

/-- Model of Rust `str::split_whitespace`: maximal runs of non-whitespace. -/
def splitWhitespaceAux : List Char → List Char → List (List Char)
  | [], acc => if acc = [] then [] else [acc.reverse]
  | c :: rest, acc =>
    if isRustWhitespace c then
      if acc = [] then splitWhitespaceAux rest []
      else acc.reverse :: splitWhitespaceAux rest []
    else splitWhitespaceAux rest (c :: acc)

def splitWhitespace (s : List Char) : List (List Char) :=
  splitWhitespaceAux s []

/-- Interleave a separator between list elements (model of `Vec::join`). -/
def joinWith : List (List Char) → List Char → List Char
  | [], _ => []
  | [x], _ => x
  | x :: y :: rest, sep => x ++ sep ++ joinWith (y :: rest) sep

/-- `containsSub s pat`: model of Rust `str::contains` for a literal pattern. -/
def containsSub (s pat : List Char) : Bool :=
  (List.range (s.length + 1)).any (fun i => pat.isPrefixOf (s.drop i))

/-- First byte(char) index of a substring occurrence (model of `str::find`). -/
def findSub (s pat : List Char) : Option Nat :=
  (List.range (s.length + 1)).find? (fun i => pat.isPrefixOf (s.drop i))

/-- Last index of a substring occurrence (model of `str::rfind`). -/
def rfindSub (s pat : List Char) : Option Nat :=
  ((List.range (s.length + 1)).filter
    (fun i => pat.isPrefixOf (s.drop i))).getLast?

/-- Model of Rust `str::replace`: replace all non-overlapping occurrences of
`pat` (non-empty) left to right.  `fuel` bounds the recursion; it is
instantiated with the length of the subject string. -/
def replaceAllAux (pat rep : List Char) : Nat → List Char → List Char
  | _, [] => []
  | 0, s => s
  | fuel + 1, c :: rest =>
    if pat ≠ [] ∧ pat.isPrefixOf (c :: rest) then
      rep ++ replaceAllAux pat rep fuel ((c :: rest).drop pat.length)
    else
      c :: replaceAllAux pat rep fuel rest

def replaceAll (s pat rep : List Char) : List Char :=
  replaceAllAux pat rep s.length s

/-- `str::replace` lifted to `String`. -/
def replaceStr (s pat rep : String) : String :=
  String.mk (replaceAll s.data pat.data rep.data)

/-- Model of Rust `str::to_lowercase` restricted to ASCII
(the inputs relevant to the claims are ASCII). -/
def toLowerStr (s : String) : String := String.mk (s.data.map Char.toLower)

/-- Model of Rust `str::to_uppercase` restricted to ASCII. -/
def toUpperStr (s : String) : String := String.mk (s.data.map Char.toUpper)

/-- Model of Rust `str::ends_with`. -/
def endsWithL (s pat : List Char) : Bool :=
  pat.reverse.isPrefixOf s.reverse

/-! ## SHA-256 (model of the `sha2` crate as used by `util::sha256_hash`)

Bytes are `Nat`s below 256; words are `Nat`s below `2^32` with overflow made
explicit by `w32`. -/

def w32 (x : Nat) : Nat := x % 4294967296

def rotr32 (n x : Nat) : Nat := w32 ((x >>> n) ||| (x <<< (32 - n)))

def ssig0 (x : Nat) : Nat := (rotr32 7 x) ^^^ (rotr32 18 x) ^^^ (x >>> 3)

def ssig1 (x : Nat) : Nat := (rotr32 17 x) ^^^ (rotr32 19 x) ^^^ (x >>> 10)

def bsig0 (x : Nat) : Nat := (rotr32 2 x) ^^^ (rotr32 13 x) ^^^ (rotr32 22 x)

def bsig1 (x : Nat) : Nat := (rotr32 6 x) ^^^ (rotr32 11 x) ^^^ (rotr32 25 x)

def sha256K : List Nat :=
  [1116352408, 1899447441, 3049323471, 3921009573,
   961987163, 1508970993, 2453635748, 2870763221,
   3624381080, 310598401, 607225278, 1426881987,
   1925078388, 2162078206, 2614888103, 3248222580,
   3835390401, 4022224774, 264347078, 604807628,
   770255983, 1249150122, 1555081692, 1996064986,
   2554220882, 2821834349, 2952996808, 3210313671,
   3336571891, 3584528711, 113926993, 338241895,
   666307205, 773529912, 1294757372, 1396182291,
   1695183700, 1986661051, 2177026350, 2456956037,
   2730485921, 2820302411, 3259730800, 3345764771,
   3516065817, 3600352804, 4094571909, 275423344,
   430227734, 506948616, 659060556, 883997877,
   958139571, 1322822218, 1537002063, 1747873779,
   1955562222, 2024104815, 2227730452, 2361852424,
   2428436474, 2756734187, 3204031479, 3329325298]

def sha256InitH : List Nat :=
  [1779033703, 3144134277, 1013904242, 2773480762,
   1359893119, 2600822924, 528734635, 1541459225]

/-- Big-endian byte decomposition of `x` into `n` bytes. -/
def beBytes (n x : Nat) : List Nat :=
  (List.range n).map (fun i => (x >>> (8 * (n - 1 - i))) % 256)

/-- SHA-256 padding: append `0x80`, zeros, and the 64-bit big-endian
bit length, reaching a multiple of 64 bytes. -/
def sha256Pad (msg : List Nat) : List Nat :=
  let zeros := (64 + 55 - msg.length % 64) % 64
  msg ++ [0x80] ++ List.replicate zeros 0 ++ beBytes 8 (msg.length * 8)

/-- Split a byte list into 64-byte blocks (`fuel` bounds the recursion). -/
def toBlocksAux : Nat → List Nat → List (List Nat)
  | _, [] => []
  | 0, _ => []
  | fuel + 1, bytes => bytes.take 64 :: toBlocksAux fuel (bytes.drop 64)

def toBlocks (bytes : List Nat) : List (List Nat) :=
  toBlocksAux bytes.length bytes

/-- Message schedule: 64 32-bit words derived from one 64-byte block. -/
def sha256Schedule (block : List Nat) : List Nat :=
  let w0 := (List.range 16).map (fun i =>
    (block.getD (4 * i) 0) * 16777216 + (block.getD (4 * i + 1) 0) * 65536 +
    (block.getD (4 * i + 2) 0) * 256 + block.getD (4 * i + 3) 0)
  (List.range 48).foldl (fun ws i =>
    let t := i + 16
    ws ++ [w32 (ssig1 (ws.getD (t - 2) 0) + ws.getD (t - 7) 0 +
                ssig0 (ws.getD (t - 15) 0) + ws.getD (t - 16) 0)]) w0

structure Sha256State where
  a : Nat
  b : Nat
  c : Nat
  d : Nat
  e : Nat
  f : Nat
  g : Nat
  h : Nat

def sha256Round (ws : List Nat) (st : Sha256State) (i : Nat) : Sha256State :=
  let ch := (st.e &&& st.f) ^^^ ((4294967295 ^^^ st.e) &&& st.g)
  let maj := (st.a &&& st.b) ^^^ (st.a &&& st.c) ^^^ (st.b &&& st.c)
  let t1 := w32 (st.h + bsig1 st.e + ch + sha256K.getD i 0 + ws.getD i 0)
  let t2 := w32 (bsig0 st.a + maj)
  { a := w32 (t1 + t2), b := st.a, c := st.b, d := st.c,
    e := w32 (st.d + t1), f := st.e, g := st.f, h := st.g }

def sha256Compress (hs : List Nat) (block : List Nat) : List Nat :=
  let ws := sha256Schedule block
  let st0 : Sha256State :=
    { a := hs.getD 0 0, b := hs.getD 1 0, c := hs.getD 2 0, d := hs.getD 3 0,
      e := hs.getD 4 0, f := hs.getD 5 0, g := hs.getD 6 0, h := hs.getD 7 0 }
  let st := (List.range 64).foldl (sha256Round ws) st0
  [w32 (hs.getD 0 0 + st.a), w32 (hs.getD 1 0 + st.b),
   w32 (hs.getD 2 0 + st.c), w32 (hs.getD 3 0 + st.d),
   w32 (hs.getD 4 0 + st.e), w32 (hs.getD 5 0 + st.f),
   w32 (hs.getD 6 0 + st.g), w32 (hs.getD 7 0 + st.h)]

/-- SHA-256 digest of a byte list, as 32 bytes. -/
def sha256 (msg : List Nat) : List Nat :=
  (((toBlocks (sha256Pad msg)).foldl sha256Compress sha256InitH).map
    (beBytes 4)).flatten

/-- UTF-8 encoding of a string as a byte list. -/
def utf8Bytes (s : String) : List Nat :=
  (s.data.map (fun c =>
    let n := c.toNat
    if n < 0x80 then [n]
    else if n < 0x800 then [0xc0 + n / 64, 0x80 + n % 64]
    else if n < 0x10000 then
      [0xe0 + n / 4096, 0x80 + n / 64 % 64, 0x80 + n % 64]
    else
      [0xf0 + n / 262144, 0x80 + n / 4096 % 64, 0x80 + n / 64 % 64,
       0x80 + n % 64])).flatten

def hexDigit (n : Nat) : Char :=
  if n < 10 then Char.ofNat (48 + n) else Char.ofNat (87 + n)

/-- Lowercase hex encoding of a byte list (model of `hex::encode`). -/
def hexEncode (bytes : List Nat) : List Char :=
  (bytes.map (fun b => [hexDigit (b / 16), hexDigit (b % 16)])).flatten

/-- `util::sha256_hash`: SHA-256 of the UTF-8 bytes, hex-encoded. -/
def sha256_hash (input : String) : String :=
  String.mk (hexEncode (sha256 (utf8Bytes input)))

end Depspector

namespace Depspector

/-! ## `src/util.rs`: relative paths, issue IDs, ignore matching -/

/-- `util::extract_relative_path`: strip everything up to and including the
last `node_modules/` segment and the following package-name segment(s)
(two segments for scoped `@…` names); fall back to the basename. -/
def extract_relative_path (file_path : String) : String :=
  let normalized := replaceStr file_path "\\" "/"
  let s := normalized.data
  let nmPat : List Char :=
    if containsSub s "/node_modules/".data then "/node_modules/".data
    else if ("node_modules/".data).isPrefixOf s then "node_modules/".data
    else []
  let fallback := String.mk ((s.reverse.takeWhile (fun c => c ≠ '/')).reverse)
  if nmPat ≠ [] then
    match rfindSub s nmPat with
    | some lastNmIdx =>
      let afterNm := s.drop (lastNmIdx + nmPat.length)
      let pkgEnd : Option Nat :=
        if afterNm.head? = some '@' then
          match findSub afterNm ['/'] with
          | some first => (findSub (afterNm.drop (first + 1)) ['/']).map
              (fun second => first + 1 + second)
          | none => none
        else findSub afterNm ['/']
      match pkgEnd with
      | some idx => String.mk (afterNm.drop (idx + 1))
      | none => fallback
    | none => fallback
  else fallback

/-- `util::normalize_line_bucket`. -/
def normalize_line_bucket (line : Nat) : Nat := line / 20 * 20

/-- The distribution-directory markers stripped by `generate_issue_id`,
in source order. -/
def distMarkers : List String :=
  ["dist-node/", "dist-src/", "dist-web/", "dist-cjs/", "dist-esm/",
   "dist-types/", "dist/", "lib/", "build/", "cjs/", "esm/", "umd/"]

/-- `util::generate_issue_id`. -/
def generate_issue_id (analyzer file_path : String) (line : Nat)
    (message : String) (package_name : Option String) : String :=
  let pkgPref : String :=
    match package_name with
    | some name =>
      let clean := replaceStr (String.mk (name.data.dropWhile (fun c => c = '@'))) "/" "-"
      String.mk (clean.data.take 8)
    | none => "unknown"
  let relative_path := extract_relative_path file_path
  let normalized_relative :=
    distMarkers.foldl (fun acc m => replaceStr acc m "") relative_path
  let message_sig : String :=
    String.mk ((joinWith ((splitWhitespace message.data).take 4) [' ']).take 40)
  let line_bucket := normalize_line_bucket line
  let hash_input := normalized_relative ++ ":" ++ toString line_bucket ++ ":" ++ message_sig
  let hash := sha256_hash hash_input
  let id := pkgPref ++ "-" ++ analyzer ++ "-" ++ String.mk (hash.data.take 6)
  let cleaned := replaceStr id "--" "-"
  toUpperStr cleaned

/-- Split at the last hyphen: `some (before, after)` when a hyphen exists
(model of `rsplitn(2, '-')`, whose two pieces are `after` then `before`). -/
def splitLastHyphen (s : List Char) : Option (List Char × List Char) :=
  match rfindSub s ['-'] with
  | some i => some (s.take i, s.drop (i + 1))
  | none => none

/-- `util::matches_ignore_id`: exact equality, or equality of the pieces
before the rightmost hyphen when both strings contain a hyphen. -/
def matches_ignore_id (issue_id ignore_id : String) : Bool :=
  if issue_id = ignore_id then true
  else if issue_id.data.contains '-' && ignore_id.data.contains '-' then
    match splitLastHyphen issue_id.data, splitLastHyphen ignore_id.data with
    | some (p1, _), some (p2, _) => p1 = p2
    | _, _ => false
  else false

end Depspector

namespace Depspector

/-! ## `src/analyzers/mod.rs`: data model, driver filtering, trust score -/

/-- `Severity` enumeration, ordered `Low < Medium < High < Critical`. -/
inductive Severity where
  | low
  | medium
  | high
  | critical
deriving DecidableEq, Repr

/-- The `Issue` record of `analyzers/mod.rs`. -/
structure Issue where
  issue_type : String
  line : Nat
  message : String
  severity : Severity
  code : Option String := none
  analyzer : Option String := none
  id : Option String := none
  file : Option String := none
deriving DecidableEq, Repr

inductive DependencyType where
  | direct
  | dev
  | optional
  | peer
  | local
  | unknown
deriving DecidableEq, Repr

/-- `AnalysisResult` (the `trust_score` field, a derived quantity modelled
separately over `ℝ`, is omitted from the record). -/
structure AnalysisResult where
  package_path : String
  package : Option String := none
  issues : List Issue
  dependency_type : DependencyType := .unknown
  is_transient : Bool := false
  is_from_cache : Bool := false
deriving DecidableEq, Repr

/-- Model of `HashSet::insert` on a set represented as a duplicate-free list. -/
def hsInsert (s : List String) (x : String) : List String :=
  if x ∈ s then s else s ++ [x]

/-- State threaded through the `retain` loop of
`Analyzer::analyze_single_package`: the kept issues, the `seen_ids` set and
the `ctx.ignored_ids` used-ignored set. -/
structure FilterState where
  kept : List Issue
  seen : List String
  recorded : List String
deriving DecidableEq, Repr

/-- One step of the `all_issues.retain(..)` closure in
`analyze_single_package`: an issue with an id is dropped (and its id
recorded) when the id is in `ctx.ignore_issues` (slice `contains`, i.e.
exact string equality), otherwise dropped iff its id was already seen;
an issue without an id is always kept. -/
def retainStep (ignore : List String) (st : FilterState) (issue : Issue) :
    FilterState :=
  match issue.id with
  | some i =>
    if i ∈ ignore then { st with recorded := hsInsert st.recorded i }
    else if i ∈ st.seen then st
    else { st with kept := st.kept ++ [issue], seen := hsInsert st.seen i }
  | none => { st with kept := st.kept ++ [issue] }

/-- The per-package ignore filter and dedup of `analyze_single_package`. -/
def filterPackageIssues (ignore : List String) (issues : List Issue) :
    FilterState :=
  issues.foldl (retainStep ignore) ⟨[], [], []⟩

/-- The `file_issues.retain(..)` step of `analyze_files_with_benchmark`:
drops (and records) issues whose id is exactly in `ctx.ignore_issues`;
issues without an id always pass. Returns (kept, recorded). -/
def fileRetainStep (ignore : List String) (acc : List Issue × List String)
    (i : Issue) : List Issue × List String :=
  match i.id with
  | some s =>
    if s ∈ ignore then (acc.1, hsInsert acc.2 s) else (acc.1 ++ [i], acc.2)
  | none => (acc.1 ++ [i], acc.2)

def retainFileIssues (ignore : List String) (issues : List Issue) :
    List Issue × List String :=
  issues.foldl (fileRetainStep ignore) ([], [])

/-- The final merge step of `Analyzer::analyze_packages`: if `fail_fast` is
set and any merged result has a non-empty issue list, the vector is
truncated with `take(1)`; otherwise it is returned unchanged. -/
def failFastMerge (fail_fast : Bool) (results : List AnalysisResult) :
    List AnalysisResult :=
  if fail_fast && results.any (fun r => !r.issues.isEmpty) then results.take 1
  else results

/-- The penalty base constants of `analyzers/mod.rs`. -/
def CRITICAL_PENALTY : ℝ := 15

def HIGH_PENALTY : ℝ := 8

def MEDIUM_PENALTY : ℝ := 3

def LOW_PENALTY : ℝ := 1

/-- `calculate_penalty_with_diminishing_returns`, with `f64` arithmetic
modelled over `ℝ` and `ln` by `Real.log`. -/
noncomputable def calculate_penalty_with_diminishing_returns
    (count : Nat) (base_penalty : ℝ) : ℝ :=
  if count = 0 then 0 else Real.log (1 + count) * base_penalty * 3

/-- `TrustScore` with the `f64` score modelled over `ℝ`. -/
structure TrustScore where
  score : ℝ
  critical_count : Nat
  high_count : Nat
  medium_count : Nat
  low_count : Nat

/-- Number of issues of a given severity. -/
def countSeverity (issues : List Issue) (s : Severity) : Nat :=
  (issues.filter (fun i => i.severity = s)).length

/-- `TrustScore::calculate`. -/
noncomputable def TrustScore.calculate (issues : List Issue) : TrustScore :=
  let critical_count := countSeverity issues .critical
  let high_count := countSeverity issues .high
  let medium_count := countSeverity issues .medium
  let low_count := countSeverity issues .low
  let penalty :=
    calculate_penalty_with_diminishing_returns critical_count CRITICAL_PENALTY +
    calculate_penalty_with_diminishing_returns high_count HIGH_PENALTY +
    calculate_penalty_with_diminishing_returns medium_count MEDIUM_PENALTY +
    calculate_penalty_with_diminishing_returns low_count LOW_PENALTY
  let score := max (100 - penalty) 0
  { score := score, critical_count := critical_count, high_count := high_count,
    medium_count := medium_count, low_count := low_count }

end Depspector

namespace Depspector

/-! ## `src/analyzers/cve.rs` -/

/-- `prefetch::VulnerabilityInfo`. -/
structure VulnerabilityInfo where
  id : String
  summary : Option String := none
  details : Option String := none
  severity_type : Option String := none
  score : Option String := none
  database_severity : Option String := none
deriving DecidableEq, Repr

def digitsToNat (l : List Char) : Nat :=
  l.foldl (fun acc c => acc * 10 + (c.toNat - 48)) 0

/-- Model of Rust `str::parse::<f64>` restricted to plain decimal literals
`[+|-] digits [. digits]` (with at least one digit); `f64` values and
rounding are modelled by exact rationals.  Exponent, `inf` and `nan` forms
are not modelled (CVSS scores are plain decimals). -/
def parseDecimal (s : String) : Option ℚ :=
  let signRest : ℚ × List Char :=
    match s.data with
    | '-' :: r => (-1, r)
    | '+' :: r => (1, r)
    | r => (1, r)
  let sign := signRest.1
  let rest := signRest.2
  let intPart := rest.takeWhile Char.isDigit
  let rest2 := rest.drop intPart.length
  match rest2 with
  | [] => if intPart = [] then none else some (sign * digitsToNat intPart)
  | '.' :: fr =>
    let fracPart := fr.takeWhile Char.isDigit
    if fr.drop fracPart.length ≠ [] then none
    else if intPart = [] && fracPart = [] then none
    else some (sign * ((digitsToNat intPart : ℚ) +
      (digitsToNat fracPart : ℚ) / (10 : ℚ) ^ fracPart.length))
  | _ => none

/-- The qualitative fallback of `CVEAnalyzer::map_severity`: the database
severity string, lowercased; unknown strings and a missing value map to
`High`. -/
def mapDbSeverity (info : VulnerabilityInfo) : Severity :=
  match info.database_severity with
  | some db_sev =>
    let dbl := toLowerStr db_sev
    if dbl = "critical" then .critical
    else if dbl = "high" then .high
    else if dbl = "moderate" ∨ dbl = "medium" then .medium
    else if dbl = "low" then .low
    else .high
  | none => .high

/-- `CVEAnalyzer::map_severity`.  When `severity_type` is `CVSS_V3`, the
first whitespace token of the score string — or `"0"` when there is none —
is parsed; on success the thresholds 9/7/4 decide, on failure the
qualitative fallback applies. -/
def map_severity (info : VulnerabilityInfo) : Severity :=
  match info.severity_type, info.score with
  | some severity_type, some score =>
    if severity_type = "CVSS_V3" then
      let score_str : String :=
        match (splitWhitespace score.data).head? with
        | some t => String.mk t
        | none => "0"
      match parseDecimal score_str with
      | some score_val =>
        if score_val ≥ 9 then .critical
        else if score_val ≥ 7 then .high
        else if score_val ≥ 4 then .medium
        else .low
      | none => mapDbSeverity info
    else mapDbSeverity info
  | _, _ => mapDbSeverity info

/-- `CVEAnalyzer::get_vulnerability_url`: dispatch on the piece before the
first hyphen (`splitn(2, '-')`); identifiers without a hyphen fall back to
the OSV API. -/
def get_vulnerability_url (id : String) : String :=
  match findSub id.data ['-'] with
  | none => "https://api.osv.dev/v1/vulns/" ++ id
  | some i =>
    let pre := String.mk (id.data.take i)
    if pre = "CVE" then "https://nvd.nist.gov/vuln/detail/" ++ id
    else if pre = "GHSA" then "https://github.com/advisories/" ++ id
    else if pre = "RUSTSEC" then "https://rustsec.org/advisories/" ++ id
    else if pre = "PYSEC" || pre = "OSV" then "https://osv.dev/vulnerability/" ++ id
    else if pre = "GO" then "https://pkg.go.dev/vuln/" ++ id
    else "https://api.osv.dev/v1/vulns/" ++ id

/-- Modelled from the spec: the `Issue` builder methods
(`Issue::new`, `with_package_name`, `with_url`) used by
`CVEAnalyzer::analyze` are not among the provided sources; per §3/§4.4 the
emitted issue carries the analyzer kind, the message, the severity, the
manifest file name, the package name and the upstream URL. -/
structure CveEmission where
  analyzer : String
  message : String
  severity : Severity
  file : String
  package_name : String
  url : String
deriving DecidableEq, Repr

/-- The emission loop of `CVEAnalyzer::analyze` over the prefetched
vulnerability list: one issue per vulnerability. -/
def cveIssues (name : String) (vulns : List VulnerabilityInfo) :
    List CveEmission :=
  vulns.map (fun vuln =>
    let severity := map_severity vuln
    let summary := (vuln.summary.or vuln.details).getD "Known vulnerability"
    let url := get_vulnerability_url vuln.id
    let message := vuln.id ++ ": " ++ summary
    { analyzer := "cve", message := message, severity := severity,
      file := "package.json", package_name := name, url := url })

/-- The claim's severity rule, following its words: use the CVSS v3
thresholds exactly when a parsable numeric CVSS v3 score is present in the
record, and otherwise fall back to the database's qualitative severity. -/
def cveSeveritySpec (info : VulnerabilityInfo) : Severity :=
  let parsedScore : Option ℚ :=
    match info.severity_type, info.score with
    | some severity_type, some score =>
      if severity_type = "CVSS_V3" then
        ((splitWhitespace score.data).head?).bind
          (fun t => parseDecimal (String.mk t))
      else none
    | _, _ => none
  match parsedScore with
  | some score_val =>
    if score_val ≥ 9 then .critical
    else if score_val ≥ 7 then .high
    else if score_val ≥ 4 then .medium
    else .low
  | none => mapDbSeverity info

/-! ## `src/analyzers/process.rs` -/

def CHILD_PROCESS_METHODS : List String :=
  ["exec", "execSync", "execFile", "execFileSync", "spawn", "spawnSync", "fork"]

def CRITICAL_BINARIES : List String :=
  ["curl", "wget", "nc", "netcat", "bash", "sh", "zsh", "fish", "cmd",
   "cmd.exe", "powershell", "powershell.exe", "pwsh", "python", "python3",
   "perl", "ruby", "php", "eval"]

def HIGH_RISK_BINARIES : List String :=
  ["node", "npm", "npx", "yarn", "pnpm", "bun", "deno", "git", "make",
   "cmake", "cargo", "go", "rustc", "gcc", "g++", "clang", "javac", "java"]

def MEDIUM_RISK_BINARIES : List String :=
  ["cp", "mv", "rm", "mkdir", "rmdir", "chmod", "chown", "cat", "echo", "ls",
   "dir", "find", "grep", "sed", "awk", "tar", "gzip", "zip", "unzip", "git"]

/-- Model of Rust `str::split` with a predicate pattern: the pieces between
separator characters, empty pieces included. -/
def splitByPredAux (p : Char → Bool) : List Char → List Char → List (List Char)
  | [], acc => [acc.reverse]
  | c :: rest, acc =>
    if p c then acc.reverse :: splitByPredAux p rest []
    else splitByPredAux p rest (c :: acc)

def splitByPred (p : Char → Bool) (s : List Char) : List (List Char) :=
  splitByPredAux p s []

/-- The leading-binary extraction shared by `is_command_allowed` and
`get_severity_for_command`: lowercase the command, split on whitespace,
`/` and `\`, take the first non-empty piece, else the whole lowered
command. -/
def commandBinary (cmd : String) : String :=
  let cmd_lower := toLowerStr cmd
  let pieces := splitByPred
    (fun c => isRustWhitespace c || c = '/' || c = '\\') cmd_lower.data
  match pieces.find? (fun s => !s.isEmpty) with
  | some b => String.mk b
  | none => cmd_lower

/-- `ProcessVisitor::is_command_allowed`. -/
def is_command_allowed (allowed_commands : List String) (cmd : String) : Bool :=
  if allowed_commands.isEmpty then false
  else
    let binary := commandBinary cmd
    allowed_commands.any (fun allowed =>
      let allowed_lower := toLowerStr allowed
      binary = allowed_lower || endsWithL binary.data allowed_lower.data)

/-- `ProcessVisitor::get_severity_for_command`.  Note membership in the
critical and high-risk lists is tested with `==` *or* `ends_with`. -/
def get_severity_for_command (cmd : String) : Severity :=
  let cmd_lower := toLowerStr cmd
  let binary := commandBinary cmd
  if CRITICAL_BINARIES.any
      (fun b => binary = b || endsWithL binary.data b.data) then .critical
  else if containsSub cmd_lower.data "://".data ||
      containsSub cmd_lower.data " | ".data ||
      containsSub cmd_lower.data "|bash".data then .critical
  else if HIGH_RISK_BINARIES.any
      (fun b => binary = b || endsWithL binary.data b.data) then .high
  else if MEDIUM_RISK_BINARIES.contains binary then .medium
  else .high

end Depspector

namespace Depspector

/-! ## `src/analyzers/typosquat.rs` -/

def POPULAR_PACKAGES : List String :=
  ["react", "react-dom", "vue", "angular", "express", "lodash", "moment",
   "axios", "tslib", "commander", "chalk", "debug", "inquirer", "fs-extra",
   "body-parser", "cors", "dotenv", "uuid", "aws-sdk", "webpack", "eslint",
   "prettier", "typescript", "jest", "mocha", "chai", "supertest", "nodemon",
   "rimraf", "glob", "async", "underscore", "request", "bluebird", "yargs",
   "minimist", "colors", "mkdirp", "semver", "qs", "ws", "socket.io",
   "mongoose", "sequelize", "redis", "pg", "mysql", "next", "nuxt", "gatsby",
   "electron"]

/-- Inner loop of `typosquat::levenshtein`: compute row `i` of the DP matrix
from row `i-1` (`prevRow`), walking the characters of `a`;
`curPrev` is the entry `matrix[i][j-1]` just computed. -/
def levRowAux (bchar : Char) : List Char → List Nat → Nat → List Nat
  | [], _, _ => []
  | achar :: arest, prevRow, curPrev =>
    match prevRow with
    | [] => []
    | pjm1 :: prest =>
      let pj := prest.headD 0
      let cost := if bchar = achar then 0 else 1
      let cur := Nat.min (pjm1 + cost) (Nat.min (curPrev + 1) (pj + 1))
      cur :: levRowAux bchar arest prest cur

/-- Outer loop of `typosquat::levenshtein`, walking the characters of `b`. -/
def levAux (ac : List Char) : List Char → List Nat → List Nat
  | [], prevRow => prevRow
  | bchar :: brest, prevRow =>
    let i0 := prevRow.headD 0 + 1
    levAux ac brest (i0 :: levRowAux bchar ac prevRow i0)

/-- `typosquat::levenshtein` (character-level edit distance via the
full DP matrix of the source, here kept row by row). -/
def levenshtein (a b : String) : Nat :=
  let a_chars := a.data
  let b_chars := b.data
  if a_chars.length = 0 then b_chars.length
  else if b_chars.length = 0 then a_chars.length
  else (levAux a_chars b_chars (List.range (a_chars.length + 1))).getLastD 0

/-- Model of Rust `str::is_ascii`. -/
def isAsciiStr (s : String) : Bool := s.data.all (fun c => c.toNat < 128)

/-- Model of Rust `str::len`: the UTF-8 byte length. -/
def utf8Len (s : String) : Nat := (utf8Bytes s).length

def typosquatName : String := "typosquat"

def nonAsciiMessage : String :=
  "Package name contains non-ASCII characters (potential homoglyph attack)"

/-- The non-ASCII (homoglyph) issue of `TyposquatAnalyzer::analyze`. -/
def mkNonAsciiIssue (pkg_name : String) : Issue :=
  { issue_type := typosquatName, line := 0, message := nonAsciiMessage,
    severity := .high, code := none, analyzer := some typosquatName,
    id := some (generate_issue_id typosquatName pkg_name 0 nonAsciiMessage
      (some pkg_name)),
    file := none }

def similarityMessage (pkg_name popular : String) (distance : Nat) : String :=
  "Package name \x27" ++ pkg_name ++ "\x27 is very similar to popular package \x27"
    ++ popular ++ "\x27 (Levenshtein distance: " ++ toString distance ++ ")"

/-- The similarity issue of `TyposquatAnalyzer::analyze`. -/
def mkSimilarityIssue (pkg_name popular : String) (distance : Nat) : Issue :=
  { issue_type := typosquatName, line := 0,
    message := similarityMessage pkg_name popular distance,
    severity := .high, code := none, analyzer := some typosquatName,
    id := some (generate_issue_id typosquatName pkg_name 0
      (similarityMessage pkg_name popular distance) (some pkg_name)),
    file := none }

/-- The reporting test of the candidate loop: Levenshtein distance at most 2
and similarity `1 − distance/max_len` strictly above `0.8`, where the
lengths are byte lengths as in the source (`f64` arithmetic modelled by
exact rationals). -/
def typosquatCond (pkg_name popular : String) : Bool :=
  let distance := levenshtein pkg_name popular
  let max_len := Nat.max (utf8Len pkg_name) (utf8Len popular)
  decide (distance ≤ 2) &&
    decide ((1 : ℚ) - (distance : ℚ) / (max_len : ℚ) > 0.8)

/-- `TyposquatAnalyzer::analyze` (the pure core, with the configured
additional packages passed explicitly): a non-ASCII name is reported, then
every candidate in the built-in list plus the additions is compared. -/
def typosquatStep (pkg_name : String) (issues : List Issue)
    (popular : String) : List Issue :=
  if pkg_name = popular then issues
  else if typosquatCond pkg_name popular then
    issues ++ [mkSimilarityIssue pkg_name popular (levenshtein pkg_name popular)]
  else issues

def typosquatAnalyze (pkg_name : String) (additional_packages : List String) :
    List Issue :=
  let issues0 :=
    if !isAsciiStr pkg_name then [mkNonAsciiIssue pkg_name] else []
  let packages_to_check := POPULAR_PACKAGES ++ additional_packages
  packages_to_check.foldl (typosquatStep pkg_name) issues0

/-! ## `src/ast.rs`: assignment values and the VariableMap -/

inductive AssignValue where
  | stringLiteral (s : String)
  | templateLiteral (s : String)
  | number (s : String)
  | boolean (b : Bool)
  | identifier (name : String)
  | binaryExpr (left : AssignValue) (op : String) (right : AssignValue)
  | objectLiteral (props : List (String × AssignValue))

inductive AssignTarget where
  | variable (name : String) (value : Option AssignValue)
  | property (object : String) (prop : String)
  | computedProperty (object : String) (prop : String)
  | other

structure AssignInfo where
  target : AssignTarget
  line : Nat

/-- The two maps of `ast::VariableMap`, as finite partial functions. -/
structure VariableMap where
  var_map : String → Option String
  obj_map : String → Option (List (String × String))

/-- Model of `HashMap::insert`. -/
def mapUpdate {α : Type} (m : String → Option α) (k : String) (v : α) :
    String → Option α :=
  fun x => if x = k then some v else m x

def isIdentStart (c : Char) : Bool := c.isAlpha || c = '_'

def isIdentChar (c : Char) : Bool := c.isAlphanum || c = '_'

/-- Parse `ident}` right after a `${`, returning the identifier and the
remainder after the closing brace. -/
def parseInterp : List Char → Option (List Char × List Char)
  | [] => none
  | c :: rest =>
    if isIdentStart c then
      let identRest := rest.takeWhile isIdentChar
      match rest.drop identRest.length with
      | '}' :: rest' => some (c :: identRest, rest')
      | _ => none
    else none

/-- All capture groups of the interpolation pattern in source order
(model of `captures_iter` with the anchored `${identifier}` regex);
`fuel` bounds the recursion and is instantiated with the string length. -/
def findInterpsAux : Nat → List Char → List (List Char)
  | _, [] => []
  | 0, _ => []
  | fuel + 1, '$' :: '{' :: rest =>
    (match parseInterp rest with
     | some (ident, rest') => ident :: findInterpsAux fuel rest'
     | none => findInterpsAux fuel ('{' :: rest))
  | fuel + 1, _ :: rest => findInterpsAux fuel rest

/-- The full matched text `${ident}` of a capture. -/
def interpFullMatch (ident : List Char) : List Char :=
  '$' :: '{' :: (ident ++ ['}'])

/-- `ParsedAst::resolve_template_interpolations`: for each capture of the
original template in order, when the identifier is a known resolved
variable, replace every occurrence of the full match in the accumulated
result. -/
def resolve_template_interpolations (template : String)
    (current_map : String → Option String) : String :=
  (findInterpsAux template.data.length template.data).foldl
    (fun result ident =>
      match current_map (String.mk ident) with
      | some value =>
        replaceStr result (String.mk (interpFullMatch ident)) value
      | none => result)
    template

/-- `ParsedAst::resolve_assign_value`: string literals resolve to
themselves, template literals through one-pass interpolation, identifiers
by lookup in the already-resolved map, `+`-concatenations when both sides
resolve; everything else fails. -/
def resolve_assign_value (value : AssignValue)
    (current_map : String → Option String) : Option String :=
  match value with
  | .stringLiteral s => some s
  | .templateLiteral s => some (resolve_template_interpolations s current_map)
  | .identifier other_var => current_map other_var
  | .binaryExpr left op right =>
    if op = "+" then
      match resolve_assign_value left current_map,
            resolve_assign_value right current_map with
      | some left_val, some right_val => some (left_val ++ right_val)
      | _, _ => none
    else none
  | _ => none

/-- One iteration of the assignment loop in
`ParsedAst::build_variable_map_internal`. -/
def buildStep (st : VariableMap) (assign : AssignInfo) : VariableMap :=
  match assign.target with
  | .variable name (some value) =>
    let st1 :=
      match resolve_assign_value value st.var_map with
      | some resolved => { st with var_map := mapUpdate st.var_map name resolved }
      | none => st
    match value with
    | .objectLiteral props =>
      let resolved_props := props.filterMap
        (fun kv => (resolve_assign_value kv.2 st.var_map).map (fun r => (kv.1, r)))
      if !resolved_props.isEmpty then
        { st1 with obj_map := mapUpdate st1.obj_map name resolved_props }
      else st1
    | _ => st1
  | _ => st

/-- `ParsedAst::build_variable_map_internal`: a single left-to-right pass
over the extracted assignments. -/
def build_variable_map_internal (assignments : List AssignInfo) : VariableMap :=
  assignments.foldl buildStep ⟨fun _ => none, fun _ => none⟩

end Depspector

namespace Depspector

/-! ## Auxiliary definitions used by the claim statements -/

/-- The numeric CVSS v3 score as the code effectively computes it: for a
`CVSS_V3` record, the parse of the first whitespace token of the score
string — the literal `"0"` standing in when the string has no token. -/
def cvssEffectiveScore (info : VulnerabilityInfo) : Option ℚ :=
  match info.severity_type, info.score with
  | some severity_type, some score =>
    if severity_type = "CVSS_V3" then
      parseDecimal (String.mk ((splitWhitespace score.data).headD "0".data))
    else none
  | _, _ => none

/-- The critical-binary set exactly as the claim lists it. -/
def claimCriticalBinaries : List String :=
  ["curl", "wget", "nc", "netcat", "bash", "sh", "zsh", "fish", "cmd",
   "powershell", "pwsh", "python", "python3", "perl", "ruby", "php", "eval"]

/-- The claim's Critical condition for the process analyzer, following its
words: the leading binary is *in* the listed set, or the command contains
one of the three suspicious substrings. -/
def specProcessCritical (cmd : String) : Bool :=
  claimCriticalBinaries.contains (commandBinary cmd) ||
    containsSub (toLowerStr cmd).data "://".data ||
    containsSub (toLowerStr cmd).data " | ".data ||
    containsSub (toLowerStr cmd).data "|bash".data

/-! ## Shared lemmas -/

lemma penalty_nonneg (count : Nat) (b : ℝ) (hb : 0 ≤ b) :
    0 ≤ calculate_penalty_with_diminishing_returns count b := by
  unfold calculate_penalty_with_diminishing_returns
  split
  · exact le_refl 0
  · have hlog : 0 ≤ Real.log (1 + count) :=
      Real.log_nonneg (le_add_of_nonneg_right (Nat.cast_nonneg count))
    have := mul_nonneg (mul_nonneg hlog hb) (by norm_num : (0:ℝ) ≤ 3)
    linarith

lemma penalty_mono (b : ℝ) (hb : 0 ≤ b) {m n : Nat} (h : m ≤ n) :
    calculate_penalty_with_diminishing_returns m b ≤
      calculate_penalty_with_diminishing_returns n b := by
  rcases Nat.eq_zero_or_pos m with hm | hm
  · subst hm
    calc calculate_penalty_with_diminishing_returns 0 b = 0 := by
          unfold calculate_penalty_with_diminishing_returns; simp
      _ ≤ _ := penalty_nonneg n b hb
  · have hm' : m ≠ 0 := Nat.pos_iff_ne_zero.mp hm
    have hn' : n ≠ 0 := by omega
    unfold calculate_penalty_with_diminishing_returns
    simp only [hm', hn', if_false]
    have hlog : Real.log (1 + (m : ℝ)) ≤ Real.log (1 + (n : ℝ)) := by
      apply Real.log_le_log (by positivity)
      have : (m : ℝ) ≤ n := Nat.cast_le.mpr h
      linarith
    have h3 : (0:ℝ) ≤ 3 := by norm_num
    exact mul_le_mul_of_nonneg_right (mul_le_mul_of_nonneg_right hlog hb) h3

lemma countSeverity_append (issues : List Issue) (issue : Issue) (s : Severity) :
    countSeverity (issues ++ [issue]) s =
      countSeverity issues s + (if issue.severity = s then 1 else 0) := by
  unfold countSeverity
  rw [List.filter_append, List.length_append]
  congr 1
  by_cases h : issue.severity = s <;> simp [h]

/-! ## Claim theorems -/

/-- C1: `generate_issue_id` depends on the line number only through the
20-line bucket `line / 20 * 20`, so any two lines in the same bucket at the
same path (same analyzer, message and package) give equal IDs; in the
concrete seed of the source tests, lines 65, 70 and 79 of `src/file.js`
give one ID while line 80 gives a different one; and for analyzer
`secrets`, identical message and package `@octokit/auth-app`, the
`dist-node`/`dist-src`/`dist-web` copies of `index.js` at lines 67, 65 and
71 give the same ID. -/
theorem generate_issue_id_line_bucket_stability :
    (∀ (analyzer path message : String) (pkg : Option String) (l₁ l₂ : Nat),
        l₁ / 20 = l₂ / 20 →
        generate_issue_id analyzer path l₁ message pkg =
          generate_issue_id analyzer path l₂ message pkg) ∧
    (generate_issue_id "eval" "src/file.js" 65 "eval detected" (some "pkg") =
        generate_issue_id "eval" "src/file.js" 70 "eval detected" (some "pkg") ∧
      generate_issue_id "eval" "src/file.js" 70 "eval detected" (some "pkg") =
        generate_issue_id "eval" "src/file.js" 79 "eval detected" (some "pkg") ∧
      generate_issue_id "eval" "src/file.js" 79 "eval detected" (some "pkg") ≠
        generate_issue_id "eval" "src/file.js" 80 "eval detected" (some "pkg")) ∧
    (generate_issue_id "secrets"
        "node_modules/@octokit/auth-app/dist-node/index.js" 67
        "Potential Private Key" (some "@octokit/auth-app") =
      generate_issue_id "secrets"
        "node_modules/@octokit/auth-app/dist-src/index.js" 65
        "Potential Private Key" (some "@octokit/auth-app") ∧
      generate_issue_id "secrets"
        "node_modules/@octokit/auth-app/dist-src/index.js" 65
        "Potential Private Key" (some "@octokit/auth-app") =
      generate_issue_id "secrets"
        "node_modules/@octokit/auth-app/dist-web/index.js" 71
        "Potential Private Key" (some "@octokit/auth-app")) := by
  refine ⟨?_, by set_option maxRecDepth 100000 in decide,
    by set_option maxRecDepth 100000 in decide⟩
  intro analyzer path message pkg l₁ l₂ h
  unfold generate_issue_id
  simp only [normalize_line_bucket, h]

/-- Witness for C1: lines 65 and 70 share the bucket `60`. -/
theorem generate_issue_id_line_bucket_stability_witness :
    (65 / 20 = 70 / 20) ∧
      generate_issue_id "eval" "src/file.js" 65 "eval detected" (some "pkg") =
        generate_issue_id "eval" "src/file.js" 70 "eval detected" (some "pkg") :=
  ⟨by decide,
    generate_issue_id_line_bucket_stability.1 "eval" "src/file.js"
      "eval detected" (some "pkg") 65 70 (by decide)⟩

/-- Counterexample for C3: with `fail_fast` set, `analyze_packages`
truncates to the *first element of the merged vector*, which can be a
result with an empty issue list even though a later result triggered the
condition. -/
theorem fail_fast_truncation_keeps_first_element :
    failFastMerge true
        [{ package_path := "/a", issues := [] },
         { package_path := "/b",
           issues := [{ issue_type := "eval", line := 1, message := "m",
                        severity := .high }] }] =
      [{ package_path := "/a", issues := [] }] ∧
    ({ package_path := "/b",
       issues := [{ issue_type := "eval", line := 1, message := "m",
                    severity := .high }] } : AnalysisResult).issues ≠ [] ∧
    ({ package_path := "/a", issues := [] } : AnalysisResult).issues = [] := by
  decide

/-- C3 (amended): when `fail_fast` is set and some merged result has a
non-empty issue list, the returned vector is `results.take 1` — exactly one
result, the first element of the merged vector (whose own issue list need
not be non-empty). -/
theorem fail_fast_truncates_to_one_result
    (results : List AnalysisResult) (r : AnalysisResult)
    (hmem : r ∈ results) (hne : r.issues ≠ []) :
    failFastMerge true results = results.take 1 ∧
      (failFastMerge true results).length = 1 := by
  have hany : results.any (fun r => !r.issues.isEmpty) = true := by
    refine List.any_eq_true.mpr ⟨r, hmem, ?_⟩
    simpa [List.isEmpty_iff] using hne
  have heq : failFastMerge true results = results.take 1 := by
    unfold failFastMerge
    simp [hany]
  refine ⟨heq, ?_⟩
  rw [heq]
  rcases results with _ | ⟨x, xs⟩
  · cases hmem
  · simp

/-- Witness for C3. -/
theorem fail_fast_truncates_to_one_result_witness :
    (({ package_path := "/b",
        issues := [{ issue_type := "eval", line := 1, message := "m",
                     severity := .high }] } : AnalysisResult) ∈
      [({ package_path := "/b",
          issues := [{ issue_type := "eval", line := 1, message := "m",
                       severity := .high }] } : AnalysisResult)]) ∧
    (failFastMerge true
        [{ package_path := "/b",
           issues := [{ issue_type := "eval", line := 1, message := "m",
                        severity := .high }] }] =
      List.take 1
        [{ package_path := "/b",
           issues := [{ issue_type := "eval", line := 1, message := "m",
                        severity := .high }] }] ∧
      (failFastMerge true
        [{ package_path := "/b",
           issues := [{ issue_type := "eval", line := 1, message := "m",
                        severity := .high }] }]).length = 1) :=
  ⟨by decide,
    fail_fast_truncates_to_one_result
      [{ package_path := "/b",
         issues := [{ issue_type := "eval", line := 1, message := "m",
                      severity := .high }] }]
      { package_path := "/b",
        issues := [{ issue_type := "eval", line := 1, message := "m",
                     severity := .high }] }
      (by decide) (by decide)⟩

/-- C4: `TrustScore::calculate` returns the per-severity issue counts and
the score `max(0, 100 − Σ penalties)` with
`penalty(count, base) = 0` for `count = 0` and `ln(1+count)·base·3`
otherwise, bases 15/8/3/1; the score always lies in `[0, 100]`. -/
theorem trust_score_calculate_bounds (issues : List Issue) :
    (TrustScore.calculate issues).critical_count =
        (issues.filter (fun i => i.severity = .critical)).length ∧
    (TrustScore.calculate issues).high_count =
        (issues.filter (fun i => i.severity = .high)).length ∧
    (TrustScore.calculate issues).medium_count =
        (issues.filter (fun i => i.severity = .medium)).length ∧
    (TrustScore.calculate issues).low_count =
        (issues.filter (fun i => i.severity = .low)).length ∧
    (TrustScore.calculate issues).score =
      max 0 (100 -
        (calculate_penalty_with_diminishing_returns
            (countSeverity issues .critical) CRITICAL_PENALTY +
         calculate_penalty_with_diminishing_returns
            (countSeverity issues .high) HIGH_PENALTY +
         calculate_penalty_with_diminishing_returns
            (countSeverity issues .medium) MEDIUM_PENALTY +
         calculate_penalty_with_diminishing_returns
            (countSeverity issues .low) LOW_PENALTY)) ∧
    0 ≤ (TrustScore.calculate issues).score ∧
    (TrustScore.calculate issues).score ≤ 100 := by
  have hpen : 0 ≤
      calculate_penalty_with_diminishing_returns
          (countSeverity issues .critical) CRITICAL_PENALTY +
        calculate_penalty_with_diminishing_returns
          (countSeverity issues .high) HIGH_PENALTY +
        calculate_penalty_with_diminishing_returns
          (countSeverity issues .medium) MEDIUM_PENALTY +
        calculate_penalty_with_diminishing_returns
          (countSeverity issues .low) LOW_PENALTY := by
    have h1 := penalty_nonneg (countSeverity issues .critical) CRITICAL_PENALTY
      (by norm_num [CRITICAL_PENALTY])
    have h2 := penalty_nonneg (countSeverity issues .high) HIGH_PENALTY
      (by norm_num [HIGH_PENALTY])
    have h3 := penalty_nonneg (countSeverity issues .medium) MEDIUM_PENALTY
      (by norm_num [MEDIUM_PENALTY])
    have h4 := penalty_nonneg (countSeverity issues .low) LOW_PENALTY
      (by norm_num [LOW_PENALTY])
    linarith
  refine ⟨rfl, rfl, rfl, rfl, ?_, ?_, ?_⟩
  · show max (100 - _) 0 = max 0 (100 - _)
    exact max_comm _ _
  · exact le_max_right _ _
  · show max (100 - _) 0 ≤ 100
    apply max_le <;> [linarith; norm_num]

/-- C5: appending any single issue to an issue list can only lower (or
keep) the trust score, whatever the severity of the new issue. -/
theorem trust_score_monotone_in_issues (issues : List Issue) (issue : Issue) :
    (TrustScore.calculate (issues ++ [issue])).score ≤
      (TrustScore.calculate issues).score := by
  have hcount : ∀ s, countSeverity issues s ≤ countSeverity (issues ++ [issue]) s := by
    intro s
    rw [countSeverity_append]
    omega
  have hterm : ∀ (s : Severity) (b : ℝ), 0 ≤ b →
      calculate_penalty_with_diminishing_returns (countSeverity issues s) b ≤
        calculate_penalty_with_diminishing_returns
          (countSeverity (issues ++ [issue]) s) b :=
    fun s b hb => penalty_mono b hb (hcount s)
  have h1 := hterm .critical CRITICAL_PENALTY (by norm_num [CRITICAL_PENALTY])
  have h2 := hterm .high HIGH_PENALTY (by norm_num [HIGH_PENALTY])
  have h3 := hterm .medium MEDIUM_PENALTY (by norm_num [MEDIUM_PENALTY])
  have h4 := hterm .low LOW_PENALTY (by norm_num [LOW_PENALTY])
  have hsub : (100 : ℝ) -
      (calculate_penalty_with_diminishing_returns
          (countSeverity (issues ++ [issue]) .critical) CRITICAL_PENALTY +
        calculate_penalty_with_diminishing_returns
          (countSeverity (issues ++ [issue]) .high) HIGH_PENALTY +
        calculate_penalty_with_diminishing_returns
          (countSeverity (issues ++ [issue]) .medium) MEDIUM_PENALTY +
        calculate_penalty_with_diminishing_returns
          (countSeverity (issues ++ [issue]) .low) LOW_PENALTY) ≤
      100 -
      (calculate_penalty_with_diminishing_returns
          (countSeverity issues .critical) CRITICAL_PENALTY +
        calculate_penalty_with_diminishing_returns
          (countSeverity issues .high) HIGH_PENALTY +
        calculate_penalty_with_diminishing_returns
          (countSeverity issues .medium) MEDIUM_PENALTY +
        calculate_penalty_with_diminishing_returns
          (countSeverity issues .low) LOW_PENALTY) := by linarith
  exact max_le_max hsub (le_refl 0)

end Depspector

namespace Depspector

/-! ## Lemmas on the driver ignore/dedup fold -/

lemma hsInsert_mem_self (s : List String) (x : String) : x ∈ hsInsert s x := by
  unfold hsInsert
  split
  · assumption
  · simp

lemma hsInsert_mem_of {s : List String} {x : String} (y : String) (h : x ∈ s) :
    x ∈ hsInsert s y := by
  unfold hsInsert
  split
  · exact h
  · exact List.mem_append_left _ h

lemma retain_recorded_mono (ignore : List String) (issues : List Issue)
    (st : FilterState) {x : String} (h : x ∈ st.recorded) :
    x ∈ (issues.foldl (retainStep ignore) st).recorded := by
  induction issues generalizing st with
  | nil => exact h
  | cons a rest ih =>
    rw [List.foldl_cons]
    refine ih _ ?_
    unfold retainStep
    rcases ha : a.id with _ | i
    · exact h
    · by_cases h1 : i ∈ ignore
      · simp only [h1, if_true]
        exact hsInsert_mem_of i h
      · by_cases h2 : i ∈ st.seen <;> simp [h1, h2, h]

lemma retain_recorded_of_mem (ignore : List String) (issues : List Issue)
    (st : FilterState) (issue : Issue) (i : String)
    (hmem : issue ∈ issues) (hid : issue.id = some i) (hig : i ∈ ignore) :
    i ∈ (issues.foldl (retainStep ignore) st).recorded := by
  induction issues generalizing st with
  | nil => cases hmem
  | cons a rest ih =>
    rw [List.foldl_cons]
    rcases List.mem_cons.mp hmem with rfl | hmem'
    · refine retain_recorded_mono ignore rest _ ?_
      unfold retainStep
      simp only [hid, hig, if_true]
      exact hsInsert_mem_self _ _
    · exact ih _ hmem'

lemma retain_kept_never_ignored (ignore : List String) (issues : List Issue)
    (st : FilterState)
    (h : ∀ issue ∈ st.kept, ∀ i, issue.id = some i → i ∉ ignore) :
    ∀ issue ∈ (issues.foldl (retainStep ignore) st).kept,
      ∀ i, issue.id = some i → i ∉ ignore := by
  induction issues generalizing st with
  | nil => exact h
  | cons a rest ih =>
    rw [List.foldl_cons]
    refine ih _ ?_
    intro issue hmem i hid
    unfold retainStep at hmem
    rcases ha : a.id with _ | j <;> simp only [ha] at hmem
    · rcases List.mem_append.mp hmem with hl | hr
      · exact h issue hl i hid
      · rw [List.mem_singleton.mp hr] at hid
        rw [ha] at hid
        cases hid
    · by_cases h1 : j ∈ ignore
      · simp only [h1, if_true] at hmem
        exact h issue hmem i hid
      · by_cases h2 : j ∈ st.seen
        · simp only [h1, if_false, h2, if_true] at hmem
          exact h issue hmem i hid
        · simp only [h1, if_false, h2] at hmem
          rcases List.mem_append.mp hmem with hl | hr
          · exact h issue hl i hid
          · rw [List.mem_singleton.mp hr] at hid
            rw [ha] at hid
            cases hid
            exact h1

lemma retain_kept_filter_isNone (ignore : List String) (issues : List Issue)
    (st : FilterState) :
    (issues.foldl (retainStep ignore) st).kept.filter (fun i => i.id.isNone) =
      st.kept.filter (fun i => i.id.isNone) ++
        issues.filter (fun i => i.id.isNone) := by
  induction issues generalizing st with
  | nil => simp
  | cons a rest ih =>
    rw [List.foldl_cons, ih]
    rcases ha : a.id with _ | j
    · have hfa : (fun i : Issue => i.id.isNone) a = true := by simp [ha]
      simp [retainStep, ha, List.filter_append, hfa]
    · have hfa : (fun i : Issue => i.id.isNone) a = false := by simp [ha]
      by_cases h1 : j ∈ ignore
      · simp [retainStep, ha, h1, hfa]
      · by_cases h2 : j ∈ st.seen
        · simp [retainStep, ha, h1, h2, hfa]
        · simp [retainStep, ha, h1, h2, List.filter_append, hfa]

lemma retain_kept_append_sublist (ignore : List String) (issues : List Issue)
    (st : FilterState) :
    ∃ tail, (issues.foldl (retainStep ignore) st).kept = st.kept ++ tail ∧
      tail.Sublist issues := by
  induction issues generalizing st with
  | nil => exact ⟨[], by simp, List.Sublist.refl []⟩
  | cons a rest ih =>
    rw [List.foldl_cons]
    rcases ih (retainStep ignore st a) with ⟨tail, heq, hsub⟩
    rcases ha : a.id with _ | j
    · refine ⟨a :: tail, ?_, List.Sublist.cons₂ a hsub⟩
      rw [heq]
      simp [retainStep, ha]
    · by_cases h1 : j ∈ ignore
      · refine ⟨tail, ?_, List.Sublist.cons a hsub⟩
        rw [heq]
        simp [retainStep, ha, h1]
      · by_cases h2 : j ∈ st.seen
        · refine ⟨tail, ?_, List.Sublist.cons a hsub⟩
          rw [heq]
          simp [retainStep, ha, h1, h2]
        · refine ⟨a :: tail, ?_, List.Sublist.cons₂ a hsub⟩
          rw [heq]
          simp [retainStep, ha, h1, h2]

lemma fileRetain_kept_filter_isNone (ignore : List String) (issues : List Issue)
    (acc : List Issue × List String) :
    (issues.foldl (fileRetainStep ignore) acc).1.filter (fun i => i.id.isNone) =
      acc.1.filter (fun i => i.id.isNone) ++
        issues.filter (fun i => i.id.isNone) := by
  induction issues generalizing acc with
  | nil => simp
  | cons a rest ih =>
    rw [List.foldl_cons, ih]
    rcases ha : a.id with _ | j
    · have hfa : (fun i : Issue => i.id.isNone) a = true := by simp [ha]
      simp [fileRetainStep, ha, List.filter_append, hfa]
    · have hfa : (fun i : Issue => i.id.isNone) a = false := by simp [ha]
      by_cases h1 : j ∈ ignore
      · simp [fileRetainStep, ha, h1, hfa]
      · simp [fileRetainStep, ha, h1, List.filter_append, hfa]

/-- Counterexample for C2: the driver's per-package ignore filter compares
with slice `contains` (exact equality), not with the §4.1 rule
`matches_ignore_id`: an issue whose ID prefix-matches an ignore pattern
(equal pieces before the rightmost hyphen, different hash suffix) is kept
and nothing is recorded in the used-ignored set. -/
theorem ignore_filter_prefix_match_not_applied :
    matches_ignore_id "PKG-SECRETS-ABC123" "PKG-SECRETS-DEF456" = true ∧
    (filterPackageIssues ["PKG-SECRETS-DEF456"]
        [{ issue_type := "secrets", line := 1, message := "m",
           severity := .high, id := some "PKG-SECRETS-ABC123" }]).kept =
      [{ issue_type := "secrets", line := 1, message := "m",
         severity := .high, id := some "PKG-SECRETS-ABC123" }] ∧
    (filterPackageIssues ["PKG-SECRETS-DEF456"]
        [{ issue_type := "secrets", line := 1, message := "m",
           severity := .high, id := some "PKG-SECRETS-ABC123" }]).recorded =
      [] := by
  decide

/-- C2 (amended): in `analyze_single_package`, an issue is dropped and its
ID recorded in the used-ignored set whenever its ID is *exactly equal* to a
user-supplied ignore pattern (the prefix clause of the §4.1 rule is not
applied by the driver). -/
theorem ignore_filter_drops_exact_matches (ignore : List String)
    (issues : List Issue) (issue : Issue) (i : String)
    (hmem : issue ∈ issues) (hid : issue.id = some i) (hig : i ∈ ignore) :
    issue ∉ (filterPackageIssues ignore issues).kept ∧
      i ∈ (filterPackageIssues ignore issues).recorded := by
  constructor
  · intro hkept
    exact retain_kept_never_ignored ignore issues ⟨[], [], []⟩
      (by intro x hx; cases hx) issue hkept i hid hig
  · exact retain_recorded_of_mem ignore issues ⟨[], [], []⟩ issue i hmem hid hig

/-- Witness for C2. -/
theorem ignore_filter_drops_exact_matches_witness :
    (({ issue_type := "secrets", line := 1, message := "m",
        severity := .high, id := some "PKG-SECRETS-ABC123" } : Issue) ∈
      [({ issue_type := "secrets", line := 1, message := "m",
          severity := .high, id := some "PKG-SECRETS-ABC123" } : Issue)]) ∧
    ("PKG-SECRETS-ABC123" ∈ ["PKG-SECRETS-ABC123"]) ∧
    (({ issue_type := "secrets", line := 1, message := "m",
        severity := .high, id := some "PKG-SECRETS-ABC123" } : Issue) ∉
      (filterPackageIssues ["PKG-SECRETS-ABC123"]
        [{ issue_type := "secrets", line := 1, message := "m",
           severity := .high, id := some "PKG-SECRETS-ABC123" }]).kept ∧
      "PKG-SECRETS-ABC123" ∈
        (filterPackageIssues ["PKG-SECRETS-ABC123"]
          [{ issue_type := "secrets", line := 1, message := "m",
             severity := .high, id := some "PKG-SECRETS-ABC123" }]).recorded) :=
  ⟨by decide, by decide,
    ignore_filter_drops_exact_matches ["PKG-SECRETS-ABC123"]
      [{ issue_type := "secrets", line := 1, message := "m",
         severity := .high, id := some "PKG-SECRETS-ABC123" }]
      { issue_type := "secrets", line := 1, message := "m",
        severity := .high, id := some "PKG-SECRETS-ABC123" }
      "PKG-SECRETS-ABC123" (by decide) rfl (by decide)⟩

/-- C10: in both the per-package ignore/dedup filter of
`analyze_single_package` and the per-file ignore filter of
`analyze_files_with_benchmark`, only issues carrying an id can be removed:
the kept list is a sublist of the input, and its id-less issues are exactly
the id-less issues of the input, in order and with multiplicity (identical
id-less duplicates are all kept). -/
theorem idless_issues_always_retained (ignore : List String)
    (issues : List Issue) :
    (filterPackageIssues ignore issues).kept.Sublist issues ∧
    (filterPackageIssues ignore issues).kept.filter (fun i => i.id.isNone) =
      issues.filter (fun i => i.id.isNone) ∧
    (retainFileIssues ignore issues).1.filter (fun i => i.id.isNone) =
      issues.filter (fun i => i.id.isNone) := by
  refine ⟨?_, ?_, ?_⟩
  · rcases retain_kept_append_sublist ignore issues ⟨[], [], []⟩ with ⟨tail, heq, hsub⟩
    unfold filterPackageIssues
    rw [heq]
    simpa using hsub
  · have := retain_kept_filter_isNone ignore issues ⟨[], [], []⟩
    unfold filterPackageIssues
    rw [this]
    simp
  · have := fileRetain_kept_filter_isNone ignore issues ([], [])
    unfold retainFileIssues
    rw [this]
    simp

end Depspector

namespace Depspector

/-! ## Lemmas on the VariableMap construction -/

lemma buildStep_var_map (st : VariableMap) (a : AssignInfo) :
    (buildStep st a).var_map =
      match a.target with
      | .variable name (some value) =>
        (match resolve_assign_value value st.var_map with
         | some resolved => mapUpdate st.var_map name resolved
         | none => st.var_map)
      | _ => st.var_map := by
  rcases a with ⟨target, ln⟩
  rcases target with ⟨name, value⟩ | ⟨o, p⟩ | ⟨o, p⟩ | _
  · rcases value with _ | v
    · rfl
    · unfold buildStep
      dsimp only
      rcases hr : resolve_assign_value v st.var_map with _ | r <;>
        rcases v with s | s | s | b | nn | ⟨l, op, rr⟩ | props <;>
          first
            | rfl
            | (dsimp only; split <;> rfl)
  all_goals rfl

lemma build_append_step (assignments : List AssignInfo) (a : AssignInfo) :
    build_variable_map_internal (assignments ++ [a]) =
      buildStep (build_variable_map_internal assignments) a := by
  unfold build_variable_map_internal
  rw [List.foldl_append]
  rfl

lemma build_var_sound (assignments : List AssignInfo) (name v : String)
    (h : (build_variable_map_internal assignments).var_map name = some v) :
    ∃ (pre post : List AssignInfo) (value : AssignValue) (ln : Nat),
      assignments =
        pre ++ (⟨.variable name (some value), ln⟩ : AssignInfo) :: post ∧
      resolve_assign_value value
        (build_variable_map_internal pre).var_map = some v := by
  induction assignments using List.reverseRecOn with
  | nil =>
    exact absurd h (by simp [build_variable_map_internal])
  | append_singleton as a ih =>
    rw [build_append_step, buildStep_var_map] at h
    rcases a with ⟨target, ln⟩
    have extend :
        (build_variable_map_internal as).var_map name = some v →
        ∃ (pre post : List AssignInfo) (value : AssignValue) (ln' : Nat),
          as ++ [(⟨target, ln⟩ : AssignInfo)] =
            pre ++ (⟨.variable name (some value), ln'⟩ : AssignInfo) :: post ∧
          resolve_assign_value value
            (build_variable_map_internal pre).var_map = some v := by
      intro h'
      rcases ih h' with ⟨pre, post, value', ln', heq, hres⟩
      refine ⟨pre, post ++ [⟨target, ln⟩], value', ln', ?_, hres⟩
      rw [heq]
      simp
    rcases target with ⟨n, ov⟩ | ⟨o, p⟩ | ⟨o, p⟩ | _
    · rcases ov with _ | value
      · dsimp only at h
        exact extend h
      · dsimp only at h
        rcases hr : resolve_assign_value value
            (build_variable_map_internal as).var_map with _ | r
        · rw [hr] at h
          exact extend h
        · rw [hr] at h
          simp only [mapUpdate] at h
          by_cases hn : name = n
          · subst hn
            have hv : r = v := by simpa using h
            exact ⟨as, [], value, ln, rfl, by rw [hr, hv]⟩
          · have h' : (build_variable_map_internal as).var_map name = some v := by
              simpa [hn] using h
            exact extend h'
    · dsimp only at h
      exact extend h
    · dsimp only at h
      exact extend h
    · dsimp only at h
      exact extend h

lemma build_overwrite (as : List AssignInfo) (name : String)
    (value : AssignValue) (ln : Nat) (v : String)
    (h : resolve_assign_value value
        (build_variable_map_internal as).var_map = some v) :
    (build_variable_map_internal
        (as ++ [⟨.variable name (some value), ln⟩])).var_map name = some v := by
  rw [build_append_step, buildStep_var_map]
  dsimp only
  rw [h]
  unfold mapUpdate
  simp

/-- C6: the VariableMap is built by one terminating left-to-right pass over
the assignments (conjunct 1, the fold-step law; termination is by
construction since every function here is total); every entry of the final
map comes from resolving some assignment's value, by the one-pass
substitution rules embodied in `resolve_assign_value`, against the map
built from the assignments strictly before it (conjunct 2); the cyclic
chain `a = b; b = a` resolves neither name — rather than diverging
(conjunct 3); and a later resolvable assignment to a name overwrites any
earlier entry (conjunct 4). -/
theorem variable_map_single_pass_sound :
    (∀ (assignments : List AssignInfo) (a : AssignInfo),
        build_variable_map_internal (assignments ++ [a]) =
          buildStep (build_variable_map_internal assignments) a) ∧
    (∀ (assignments : List AssignInfo) (name v : String),
        (build_variable_map_internal assignments).var_map name = some v →
        ∃ (pre post : List AssignInfo) (value : AssignValue) (ln : Nat),
          assignments =
            pre ++ (⟨.variable name (some value), ln⟩ : AssignInfo) :: post ∧
          resolve_assign_value value
            (build_variable_map_internal pre).var_map = some v) ∧
    ((build_variable_map_internal
        [⟨.variable "a" (some (.identifier "b")), 1⟩,
         ⟨.variable "b" (some (.identifier "a")), 2⟩]).var_map "a" = none ∧
      (build_variable_map_internal
        [⟨.variable "a" (some (.identifier "b")), 1⟩,
         ⟨.variable "b" (some (.identifier "a")), 2⟩]).var_map "b" = none) ∧
    (∀ (as : List AssignInfo) (name : String) (value : AssignValue)
        (ln : Nat) (v : String),
        resolve_assign_value value
            (build_variable_map_internal as).var_map = some v →
        (build_variable_map_internal
            (as ++ [⟨.variable name (some value), ln⟩])).var_map name =
          some v) :=
  ⟨build_append_step, build_var_sound, ⟨rfl, rfl⟩, build_overwrite⟩

/-- Witness for C6: the later assignment `x = "s"` is resolvable and ends
up in the map. -/
theorem variable_map_single_pass_sound_witness :
    (resolve_assign_value (.stringLiteral "s")
        (build_variable_map_internal []).var_map = some "s") ∧
    (build_variable_map_internal
        [⟨.variable "x" (some (.stringLiteral "s")), 1⟩]).var_map "x" =
      some "s" :=
  ⟨rfl,
    variable_map_single_pass_sound.2.2.2 [] "x" (.stringLiteral "s") 1 "s" rfl⟩

end Depspector


namespace Depspector

/-! ## Lemmas on the cve analyzer -/

lemma findSub_cons (c : Char) (l pat : List Char) :
    findSub (c :: l) pat =
      if pat.isPrefixOf (c :: l) then some 0
      else Option.map Nat.succ (findSub l pat) := by
  unfold findSub
  rw [show (c :: l).length + 1 = l.length + 1 + 1 from rfl,
    List.range_succ_eq_map, List.find?_cons]
  cases h : pat.isPrefixOf ((c :: l).drop 0) with
  | true =>
    simp only [List.drop_zero] at h
    simp [h]
  | false =>
    simp only [List.drop_zero] at h
    rw [List.find?_map]
    simp [h, Function.comp_def, List.drop_succ_cons]

lemma findSub_hyphen_concat (pre suffix : List Char) (h : '-' ∉ pre) :
    findSub (pre ++ '-' :: suffix) ['-'] = some pre.length := by
  induction pre with
  | nil =>
    rw [List.nil_append, findSub_cons]
    simp [List.isPrefixOf]
  | cons c cs ih =>
    have hc : c ≠ '-' := fun he => h (by simp [he])
    have hcs : '-' ∉ cs := fun hm => h (List.mem_cons_of_mem c hm)
    rw [List.cons_append, findSub_cons]
    have hp : (['-'] : List Char).isPrefixOf (c :: (cs ++ '-' :: suffix)) = false := by
      simp [List.isPrefixOf, Ne.symm hc]
    rw [if_neg (by simp [hp]), ih hcs]
    rfl

lemma findSub_hyphen_none (s : List Char) (h : '-' ∉ s) :
    findSub s ['-'] = none := by
  unfold findSub
  rw [List.find?_eq_none]
  intro i _ hp
  have hmem : '-' ∈ s.drop i := by
    cases hd : s.drop i with
    | nil => rw [hd] at hp; simp [List.isPrefixOf] at hp
    | cons a rest =>
      rw [hd] at hp
      simp only [List.isPrefixOf, Bool.and_eq_true, beq_iff_eq] at hp
      exact List.mem_cons.mpr (Or.inl hp.1)
  exact h (List.Sublist.mem hmem (List.drop_sublist i s))

lemma get_vulnerability_url_concat (pd : List Char) (suffix : String)
    (hp : '-' ∉ pd) :
    get_vulnerability_url (String.mk (pd ++ '-' :: suffix.data)) =
      (if String.mk pd = "CVE" then
        "https://nvd.nist.gov/vuln/detail/" ++ String.mk (pd ++ '-' :: suffix.data)
      else if String.mk pd = "GHSA" then
        "https://github.com/advisories/" ++ String.mk (pd ++ '-' :: suffix.data)
      else if String.mk pd = "RUSTSEC" then
        "https://rustsec.org/advisories/" ++ String.mk (pd ++ '-' :: suffix.data)
      else if String.mk pd = "PYSEC" || String.mk pd = "OSV" then
        "https://osv.dev/vulnerability/" ++ String.mk (pd ++ '-' :: suffix.data)
      else if String.mk pd = "GO" then
        "https://pkg.go.dev/vuln/" ++ String.mk (pd ++ '-' :: suffix.data)
      else "https://api.osv.dev/v1/vulns/" ++ String.mk (pd ++ '-' :: suffix.data)) := by
  unfold get_vulnerability_url
  have hf : findSub (String.mk (pd ++ '-' :: suffix.data)).data ['-'] =
      some pd.length := findSub_hyphen_concat pd suffix.data hp
  rw [hf]
  dsimp only
  rw [show (String.mk (pd ++ '-' :: suffix.data)).data.take pd.length = pd from
    List.take_left' rfl]

lemma map_severity_via_effective (info : VulnerabilityInfo) :
    map_severity info =
      match cvssEffectiveScore info with
      | some score_val =>
        if score_val ≥ 9 then .critical
        else if score_val ≥ 7 then .high
        else if score_val ≥ 4 then .medium
        else .low
      | none => mapDbSeverity info := by
  rcases info with ⟨idv, sm, dt, ost, osc, odb⟩
  rcases ost with _ | st <;> rcases osc with _ | sc
  · rfl
  · rfl
  · rfl
  · unfold map_severity cvssEffectiveScore
    dsimp only
    by_cases hcv : st = "CVSS_V3"
    · subst hcv
      rw [if_pos rfl, if_pos rfl]
      cases hl : splitWhitespace sc.data with
      | nil => rfl
      | cons t ts => rfl
    · rw [if_neg hcv, if_neg hcv]

end Depspector

namespace Depspector

/-- Counterexample for C7: a record with CVSS type `CVSS_V3` whose score
string contains no token (only whitespace) has no parsable numeric CVSS v3
score, yet `map_severity` substitutes the literal `"0"` and returns `Low`
instead of falling back to the database severity (`critical` here), which
the claim prescribes. -/
theorem cve_whitespace_score_counterexample :
    map_severity { id := "CVE-2024-0001", severity_type := some "CVSS_V3",
                   score := some " ",
                   database_severity := some "critical" } = Severity.low ∧
    cveSeveritySpec { id := "CVE-2024-0001", severity_type := some "CVSS_V3",
                      score := some " ",
                      database_severity := some "critical" } =
      Severity.critical := by
  constructor
  · rw [map_severity_via_effective,
      show cvssEffectiveScore
          { id := "CVE-2024-0001", severity_type := some "CVSS_V3",
            score := some " ", database_severity := some "critical" } =
        some ((1 : ℚ) * ((0 : ℕ) : ℚ)) from rfl]
    dsimp only
    rw [if_neg (by norm_num), if_neg (by norm_num), if_neg (by norm_num)]
  · decide

/-- C7 (amended): the cve analyzer's severity follows the 9/7/4 CVSS v3
thresholds whenever the effective score — the first whitespace token of the
score string, the literal `"0"` standing in when there is no token —
parses (conjunct 1); when it does not parse it falls back to the
database's qualitative severity (conjunct 2), which maps
critical/high/moderate-or-medium/low case-insensitively and defaults to
High (conjuncts 3 and 4); the vulnerability URL is chosen by the piece of
the identifier before its first hyphen (conjunct 5), identifiers without a
hyphen falling back to the OSV API (conjunct 6); the analyzer emits
exactly one issue per vulnerability, carrying that severity and URL
(conjunct 7); and the 7.5-score seed yields one `High` issue with the
GHSA URL (conjunct 8). -/
theorem cve_severity_url_characterization :
    (∀ (info : VulnerabilityInfo) (q : ℚ), cvssEffectiveScore info = some q →
        map_severity info =
          (if q ≥ 9 then .critical else if q ≥ 7 then .high
           else if q ≥ 4 then .medium else .low)) ∧
    (∀ info : VulnerabilityInfo, cvssEffectiveScore info = none →
        map_severity info = mapDbSeverity info) ∧
    (∀ (info : VulnerabilityInfo) (s : String),
        info.database_severity = some s →
        ((toLowerStr s = "critical" → mapDbSeverity info = .critical) ∧
         (toLowerStr s = "high" → mapDbSeverity info = .high) ∧
         (toLowerStr s = "moderate" ∨ toLowerStr s = "medium" →
            mapDbSeverity info = .medium) ∧
         (toLowerStr s = "low" → mapDbSeverity info = .low) ∧
         (toLowerStr s ≠ "critical" → toLowerStr s ≠ "high" →
            toLowerStr s ≠ "moderate" → toLowerStr s ≠ "medium" →
            toLowerStr s ≠ "low" → mapDbSeverity info = .high))) ∧
    (∀ info : VulnerabilityInfo, info.database_severity = none →
        mapDbSeverity info = .high) ∧
    (∀ suffix : String,
        get_vulnerability_url ("CVE-" ++ suffix) =
          "https://nvd.nist.gov/vuln/detail/" ++ ("CVE-" ++ suffix) ∧
        get_vulnerability_url ("GHSA-" ++ suffix) =
          "https://github.com/advisories/" ++ ("GHSA-" ++ suffix) ∧
        get_vulnerability_url ("RUSTSEC-" ++ suffix) =
          "https://rustsec.org/advisories/" ++ ("RUSTSEC-" ++ suffix) ∧
        get_vulnerability_url ("PYSEC-" ++ suffix) =
          "https://osv.dev/vulnerability/" ++ ("PYSEC-" ++ suffix) ∧
        get_vulnerability_url ("OSV-" ++ suffix) =
          "https://osv.dev/vulnerability/" ++ ("OSV-" ++ suffix) ∧
        get_vulnerability_url ("GO-" ++ suffix) =
          "https://pkg.go.dev/vuln/" ++ ("GO-" ++ suffix)) ∧
    (∀ id : String, '-' ∉ id.data →
        get_vulnerability_url id = "https://api.osv.dev/v1/vulns/" ++ id) ∧
    (∀ (name : String) (vulns : List VulnerabilityInfo),
        (cveIssues name vulns).length = vulns.length ∧
        List.Forall₂
          (fun (v : VulnerabilityInfo) (e : CveEmission) =>
            e.severity = map_severity v ∧
            e.url = get_vulnerability_url v.id ∧ e.analyzer = "cve")
          vulns (cveIssues name vulns)) ∧
    (cveIssues "pkg"
        [{ id := "GHSA-xg73-94fp-g449", severity_type := some "CVSS_V3",
           score := some "7.5" }] =
      [{ analyzer := "cve", message := "GHSA-xg73-94fp-g449: Known vulnerability",
         severity := .high, file := "package.json", package_name := "pkg",
         url := "https://github.com/advisories/GHSA-xg73-94fp-g449" }]) := by
  refine ⟨?_, ?_, ?_, ?_, ?_, ?_, ?_, ?_⟩
  · intro info q h
    rw [map_severity_via_effective, h]
  · intro info h
    rw [map_severity_via_effective, h]
  · intro info s hdb
    rcases info with ⟨idv, sm, dt, ost, osc, odb⟩
    simp only at hdb
    subst hdb
    unfold mapDbSeverity
    dsimp only
    refine ⟨?_, ?_, ?_, ?_, ?_⟩
    · intro h
      rw [if_pos h]
    · intro h
      rw [if_neg (by simp [h]), if_pos h]
    · intro h
      have h1 : toLowerStr s ≠ "critical" := by rcases h with h | h <;> simp [h]
      have h2 : toLowerStr s ≠ "high" := by rcases h with h | h <;> simp [h]
      rw [if_neg h1, if_neg h2, if_pos h]
    · intro h
      rw [if_neg (by simp [h]), if_neg (by simp [h]),
        if_neg (by simp [h]), if_pos h]
    · intro h1 h2 h3 h4 h5
      rw [if_neg h1, if_neg h2, if_neg (by simp [h3, h4]), if_neg h5]
  · intro info h
    rcases info with ⟨idv, sm, dt, ost, osc, odb⟩
    simp only at h
    subst h
    rfl
  · intro suffix
    refine ⟨?_, ?_, ?_, ?_, ?_, ?_⟩
    · have h := get_vulnerability_url_concat ("CVE".data) suffix (by decide)
      rw [if_pos rfl] at h
      exact h
    · have h := get_vulnerability_url_concat ("GHSA".data) suffix (by decide)
      rw [if_neg (by decide), if_pos rfl] at h
      exact h
    · have h := get_vulnerability_url_concat ("RUSTSEC".data) suffix (by decide)
      rw [if_neg (by decide), if_neg (by decide), if_pos rfl] at h
      exact h
    · have h := get_vulnerability_url_concat ("PYSEC".data) suffix (by decide)
      rw [if_neg (by decide), if_neg (by decide), if_neg (by decide),
        if_pos (by decide)] at h
      exact h
    · have h := get_vulnerability_url_concat ("OSV".data) suffix (by decide)
      rw [if_neg (by decide), if_neg (by decide), if_neg (by decide),
        if_pos (by decide)] at h
      exact h
    · have h := get_vulnerability_url_concat ("GO".data) suffix (by decide)
      rw [if_neg (by decide), if_neg (by decide), if_neg (by decide),
        if_neg (by decide), if_pos rfl] at h
      exact h
  · intro id h
    unfold get_vulnerability_url
    rw [findSub_hyphen_none id.data h]
  · intro name vulns
    constructor
    · simp [cveIssues]
    · unfold cveIssues
      rw [List.forall₂_map_right_iff]
      refine List.forall₂_same.mpr ?_
      intro v _
      exact ⟨rfl, rfl, rfl⟩
  · have hsev : map_severity
        { id := "GHSA-xg73-94fp-g449", severity_type := some "CVSS_V3",
          score := some "7.5" } = Severity.high := by
      rw [map_severity_via_effective,
        show cvssEffectiveScore
            { id := "GHSA-xg73-94fp-g449", severity_type := some "CVSS_V3",
              score := some "7.5" } =
          some ((1 : ℚ) * (((7 : ℕ) : ℚ) + ((5 : ℕ) : ℚ) / (10 : ℚ) ^ (1 : ℕ)))
          from rfl]
      dsimp only
      rw [if_neg (by norm_num), if_pos (by norm_num)]
    simp only [cveIssues, List.map]
    rw [hsev]
    decide

/-- Witness for C7: the 7.5 CVSS v3 score parses and lands in the
`≥ 7` threshold bucket. -/
theorem cve_severity_url_characterization_witness :
    cvssEffectiveScore
        { id := "GHSA-xg73-94fp-g449", severity_type := some "CVSS_V3",
          score := some "7.5" } =
      some (7.5 : ℚ) ∧
    map_severity
        { id := "GHSA-xg73-94fp-g449", severity_type := some "CVSS_V3",
          score := some "7.5" } =
      (if (7.5 : ℚ) ≥ 9 then .critical else if (7.5 : ℚ) ≥ 7 then .high
       else if (7.5 : ℚ) ≥ 4 then .medium else .low) := by
  have hq : cvssEffectiveScore
      { id := "GHSA-xg73-94fp-g449", severity_type := some "CVSS_V3",
        score := some "7.5" } =
      some (7.5 : ℚ) := by
    rw [show cvssEffectiveScore
          { id := "GHSA-xg73-94fp-g449", severity_type := some "CVSS_V3",
            score := some "7.5" } =
        some ((1 : ℚ) * (((7 : ℕ) : ℚ) + ((5 : ℕ) : ℚ) / (10 : ℚ) ^ (1 : ℕ)))
        from rfl]
    norm_num
  exact ⟨hq,
    cve_severity_url_characterization.1
      { id := "GHSA-xg73-94fp-g449", severity_type := some "CVSS_V3",
        score := some "7.5" }
      (7.5 : ℚ) hq⟩

end Depspector

namespace Depspector

/-- Counterexample for C8: the command `ssh x` — leading binary `ssh` —
satisfies none of the claim's Critical conditions (its binary is not *in*
the critical set and the command has none of the three suspicious
substrings), yet the code classifies it Critical, because membership is
tested with `ends_with` as well (`"ssh"` ends with `"sh"`). -/
theorem process_severity_ssh_counterexample :
    get_severity_for_command "ssh x" = Severity.critical ∧
    specProcessCritical "ssh x" = false := by
  constructor <;> decide

/-- C8 (amended): `get_severity_for_command` is Critical exactly when the
leading binary equals *or ends with* an element of the critical-binary
list (which also contains `cmd.exe` and `powershell.exe`) or the lowered
command contains `://`, ` | ` or `|bash`; otherwise High exactly when the
binary equals or ends with an element of the high-risk list or is not in
the medium-risk list; otherwise Medium exactly when the binary is
(exactly) in the medium-risk list; and the result is never Low. -/
theorem process_severity_characterization (cmd : String) :
    (get_severity_for_command cmd = .critical ↔
      ((∃ b ∈ CRITICAL_BINARIES,
          commandBinary cmd = b ∨
            endsWithL (commandBinary cmd).data b.data = true) ∨
        containsSub (toLowerStr cmd).data "://".data = true ∨
        containsSub (toLowerStr cmd).data " | ".data = true ∨
        containsSub (toLowerStr cmd).data "|bash".data = true)) ∧
    (get_severity_for_command cmd = .high ↔
      (¬ ((∃ b ∈ CRITICAL_BINARIES,
            commandBinary cmd = b ∨
              endsWithL (commandBinary cmd).data b.data = true) ∨
          containsSub (toLowerStr cmd).data "://".data = true ∨
          containsSub (toLowerStr cmd).data " | ".data = true ∨
          containsSub (toLowerStr cmd).data "|bash".data = true) ∧
        ((∃ b ∈ HIGH_RISK_BINARIES,
            commandBinary cmd = b ∨
              endsWithL (commandBinary cmd).data b.data = true) ∨
          commandBinary cmd ∉ MEDIUM_RISK_BINARIES))) ∧
    (get_severity_for_command cmd = .medium ↔
      (¬ ((∃ b ∈ CRITICAL_BINARIES,
            commandBinary cmd = b ∨
              endsWithL (commandBinary cmd).data b.data = true) ∨
          containsSub (toLowerStr cmd).data "://".data = true ∨
          containsSub (toLowerStr cmd).data " | ".data = true ∨
          containsSub (toLowerStr cmd).data "|bash".data = true) ∧
        ¬ (∃ b ∈ HIGH_RISK_BINARIES,
            commandBinary cmd = b ∨
              endsWithL (commandBinary cmd).data b.data = true) ∧
        commandBinary cmd ∈ MEDIUM_RISK_BINARIES)) ∧
    get_severity_for_command cmd ≠ .low := by
  unfold get_severity_for_command
  dsimp only
  cases h1 : CRITICAL_BINARIES.any
      (fun b => commandBinary cmd = b || endsWithL (commandBinary cmd).data b.data) <;>
    cases h2 : containsSub (toLowerStr cmd).data "://".data <;>
      cases h3 : containsSub (toLowerStr cmd).data " | ".data <;>
        cases h4 : containsSub (toLowerStr cmd).data "|bash".data <;>
          cases h5 : HIGH_RISK_BINARIES.any
              (fun b => commandBinary cmd = b ||
                endsWithL (commandBinary cmd).data b.data) <;>
            cases h6 : MEDIUM_RISK_BINARIES.contains (commandBinary cmd) <;>
              simp_all [List.any_eq_true, List.contains, List.elem_iff]

end Depspector

namespace Depspector

/-! ## Lemmas on the typosquat analyzer -/

lemma typosquat_foldl (pkg_name : String) (packs : List String)
    (init : List Issue) :
    packs.foldl (typosquatStep pkg_name) init =
      init ++
        (packs.filter
          (fun p => !(pkg_name == p) && typosquatCond pkg_name p)).map
          (fun p => mkSimilarityIssue pkg_name p (levenshtein pkg_name p)) := by
  induction packs generalizing init with
  | nil => simp
  | cons p rest ih =>
    rw [List.foldl_cons, ih]
    by_cases h1 : pkg_name = p
    · simp [typosquatStep, h1]
    · by_cases h2 : typosquatCond pkg_name p = true
      · simp [typosquatStep, h1, h2, Ne.symm h1]
      · simp [typosquatStep, h1, h2, Ne.symm h1]

/-- C9: the typosquat analyzer reports the High homoglyph issue whenever
the package name has a non-ASCII character (conjunct 1); its full output
is that issue (when applicable) followed by exactly one High similarity
issue for each candidate of the built-in popular list plus the configured
additions that differs from the name and satisfies Levenshtein distance
at most 2 with similarity `1 − distance/max_len` strictly above 0.8
(conjunct 2); and every reported issue has severity High (conjunct 3). -/
theorem typosquat_report_characterization (pkg_name : String)
    (additional_packages : List String) :
    (isAsciiStr pkg_name = false →
      mkNonAsciiIssue pkg_name ∈ typosquatAnalyze pkg_name additional_packages ∧
        (mkNonAsciiIssue pkg_name).severity = .high) ∧
    (typosquatAnalyze pkg_name additional_packages =
      (if isAsciiStr pkg_name = false then [mkNonAsciiIssue pkg_name] else []) ++
        ((POPULAR_PACKAGES ++ additional_packages).filter
          (fun p => !(pkg_name == p) && typosquatCond pkg_name p)).map
          (fun p => mkSimilarityIssue pkg_name p (levenshtein pkg_name p))) ∧
    (∀ issue ∈ typosquatAnalyze pkg_name additional_packages,
      issue.severity = .high) := by
  have hchar : typosquatAnalyze pkg_name additional_packages =
      (if isAsciiStr pkg_name = false then [mkNonAsciiIssue pkg_name]
       else []) ++
        ((POPULAR_PACKAGES ++ additional_packages).filter
          (fun p => !(pkg_name == p) && typosquatCond pkg_name p)).map
          (fun p => mkSimilarityIssue pkg_name p (levenshtein pkg_name p)) := by
    unfold typosquatAnalyze
    rw [typosquat_foldl]
    by_cases ha : isAsciiStr pkg_name <;> simp [ha]
  refine ⟨?_, hchar, ?_⟩
  · intro ha
    refine ⟨?_, rfl⟩
    rw [hchar, if_pos ha]
    exact List.mem_append_left _ (List.mem_singleton.mpr rfl)
  · intro issue hmem
    rw [hchar] at hmem
    rcases List.mem_append.mp hmem with hl | hr
    · by_cases ha : isAsciiStr pkg_name = false
      · rw [if_pos ha] at hl
        rw [List.mem_singleton.mp hl]
        rfl
      · rw [if_neg ha] at hl
        cases hl
    · rcases List.mem_map.mp hr with ⟨p, _, rfl⟩
      rfl

/-- Witness for C9: a package name with a Cyrillic letter is non-ASCII and
the homoglyph issue is reported. -/
theorem typosquat_report_characterization_witness :
    isAsciiStr "rеact" = false ∧
      mkNonAsciiIssue "rеact" ∈ typosquatAnalyze "rеact" [] :=
  ⟨by decide,
    ((typosquat_report_characterization "rеact" []).1 (by decide)).1⟩

end Depspector
